import Mathlib

/-!
Verification development for the durable-execution orchestration engine
excerpt: the workflow mutable-state update protocol (pause-activity flow,
update transaction engine) and the completion-callback delivery subsystem
(state machine, registration validation, reset interaction).

Definitions in the `Pause` namespace embed the `Invoke` function of the
`pauseactivity` package; the per-activity transition and the transaction
engine it calls are modelled from the spec (their code is outside this
excerpt).  Definitions in the `Callbacks` namespace model the callback
delivery state machine and registration validation from the spec, backed
by the behaviours observed in the functional tests of this excerpt.
-/

deriving instance DecidableEq for Except

namespace Pause

/-- Activity lifecycle states, per the spec data model:
state ∈ \x7bScheduled, Started, Paused, Completed, Failed, Canceled\x7d. -/
inductive ActivityState where
  | Scheduled
  | Started
  | Paused
  | Completed
  | Failed
  | Canceled
deriving DecidableEq, Repr

/-- A pending-activity record in the mutable state projection. -/
structure ActivityInfo where
  activityId : String
  activityType : String
  state : ActivityState
deriving DecidableEq, Repr

/-- In-memory mutable state projection of one run (the part the
pause-activity flow touches: the pending activities). -/
structure MutableState where
  pendingActivities : List ActivityInfo
deriving DecidableEq, Repr

/-- Typed errors of the engine, per the spec error taxonomy. -/
inductive ServiceError where
  | ActivityNotFound
  | InvalidActivityState (activityId : String) (st : ActivityState)
  | InvalidArgument (message : String)
  | NotFound
  | ShardOwnershipLost
  | ConcurrentUpdate
deriving DecidableEq, Repr

/-- Result of a mutation function, handed to the transaction engine:
Noop skips persistence, CreateWorkflowTask additionally enqueues a task. -/
structure UpdateWorkflowAction where
  Noop : Bool
  CreateWorkflowTask : Bool
deriving DecidableEq, Repr

/-- The activity selector of a PauseActivity request: either one specific
activityID or an activityType meaning all pending activities of that type. -/
inductive ActivitySelector where
  | byId (id : String)
  | byType (t : String)
deriving DecidableEq, Repr

/-- First pending activity with the given activityID (the mutable state
keeps at most one pending activity per activityID). -/
def findActivity (ms : MutableState) (activityId : String) : Option ActivityInfo :=
  ms.pendingActivities.find? (fun ai => ai.activityId = activityId)

/-- State of the pending activity with the given ID, if present. -/
def activityState (ms : MutableState) (activityId : String) : Option ActivityState :=
  (findActivity ms activityId).map (fun ai => ai.state)

/-- Whether the transition to Paused is legal from the given state:
terminal states (Completed, Failed, Canceled) cannot be paused. -/
def pausable : ActivityState → Bool
  | .Scheduled => true
  | .Started => true
  | .Paused => true
  | .Completed => false
  | .Failed => false
  | .Canceled => false

/-- Set the state of the pending activity with the given ID to Paused. -/
def pauseOne (ms : MutableState) (activityId : String) : MutableState :=
  { pendingActivities :=
      ms.pendingActivities.map (fun a =>
        if a.activityId = activityId then { a with state := .Paused } else a) }

/-- Modelled from the spec: `workflow.PauseActivity` (called by `Invoke`
but outside this excerpt).  Transition the selected pending activity to
Paused; fail if the activity does not exist or if the transition is
illegal for its current state (for example, a terminal state). -/
def PauseActivity (ms : MutableState) (activityId : String) :
    Except ServiceError MutableState :=
  match findActivity ms activityId with
  | none => .error .ActivityNotFound
  | some ai =>
    if pausable ai.state then .ok (pauseOne ms activityId)
    else .error (.InvalidActivityState activityId ai.state)

/-- Resolution of the selector, from the `Invoke` source: an ID selector
contributes exactly that ID; a type selector collects the IDs of all
pending activities whose type name matches. -/
def resolveActivityIDs (ms : MutableState) : ActivitySelector → List String
  | .byId id => [id]
  | .byType t =>
    (ms.pendingActivities.filter (fun ai => ai.activityType = t)).map
      (fun ai => ai.activityId)

/-- The for-loop of `Invoke`: pause each resolved ID in order; on the
first error stop and report it, together with the mutable state as
mutated so far (the Go code mutates the projection in place). -/
def pauseAll : MutableState → List String → MutableState × Option ServiceError
  | ms, [] => (ms, none)
  | ms, activityId :: rest =>
    match PauseActivity ms activityId with
    | .error e => (ms, some e)
    | .ok ms1 => pauseAll ms1 rest

/-- The update function closure of `Invoke`, embedded from the source:
resolve the selector; if no IDs match fail with ActivityNotFound; else
pause every resolved ID, aborting on the first error; on success return
the action with Noop = false and CreateWorkflowTask = false.  The first
component is the in-memory mutable state when the function returns. -/
def pauseActivityUpdateFn (sel : ActivitySelector) (mutableState : MutableState) :
    MutableState × Except ServiceError UpdateWorkflowAction :=
  if (resolveActivityIDs mutableState sel).length = 0 then
    (mutableState, .error .ActivityNotFound)
  else
    match pauseAll mutableState (resolveActivityIDs mutableState sel) with
    | (ms, some e) => (ms, .error e)
    | (ms, none) => (ms, .ok { Noop := false, CreateWorkflowTask := false })

/-- Persisted view: the history store state for one run, with the version
counter used for optimistic concurrency and the count of enqueued
workflow tasks. -/
structure Store where
  persisted : MutableState
  version : Nat
  workflowTasks : Nat
deriving DecidableEq, Repr

/-- Modelled from the spec: `api.GetAndUpdateWorkflowWithNew` (called by
`Invoke` but outside this excerpt).  Load the persisted state, run the
caller-supplied update function on it; if it errors, do not persist and
propagate the error; if the action is Noop, skip persistence; otherwise
persist the mutated state, bump the version, and enqueue a workflow task
exactly when CreateWorkflowTask is set. -/
def GetAndUpdateWorkflowWithNew (st : Store)
    (updateFn : MutableState → MutableState × Except ServiceError UpdateWorkflowAction) :
    Store × Except ServiceError Unit :=
  match updateFn st.persisted with
  | (_, .error e) => (st, .error e)
  | (ms, .ok action) =>
    if action.Noop then (st, .ok ())
    else
      ({ persisted := ms
         version := st.version + 1
         workflowTasks :=
           if action.CreateWorkflowTask then st.workflowTasks + 1 else st.workflowTasks },
       .ok ())

/-- `Invoke` of the pauseactivity package, embedded from the source: one
invocation of the update transaction engine with the pause update
function. -/
def PauseActivityInvoke (st : Store) (sel : ActivitySelector) :
    Store × Except ServiceError Unit :=
  GetAndUpdateWorkflowWithNew st (pauseActivityUpdateFn sel)

/-- Decidable form of: every pending activity whose type matches `t` is
Paused. -/
def allMatchingPaused (ms : MutableState) (t : String) : Bool :=
  ms.pendingActivities.all (fun a => !(a.activityType == t) || (a.state == .Paused))

/-- Decidable form of: every pending activity whose ID is in `ids` is
Paused. -/
def pausedForAll (ms : MutableState) (ids : List String) : Bool :=
  ms.pendingActivities.all (fun a => !(decide (a.activityId ∈ ids)) || (a.state == .Paused))

end Pause

namespace Callbacks

/-- Callback delivery states, per the spec state machine. -/
inductive CallbackState where
  | STANDBY
  | BACKING_OFF
  | SUCCEEDED
  | FAILED
deriving DecidableEq, Repr

/-- A callback entry in the mutable state: delivery state, attempt
counter, and the failure recorded by the last attempt (if any). -/
structure CallbackInfo where
  state : CallbackState
  attempt : Nat
  lastAttemptFailure : Option String
deriving DecidableEq, Repr

/-- Modelled from the spec: registration at workflow start yields
STANDBY with attempt = 0. -/
def initialCallback : CallbackInfo :=
  { state := .STANDBY, attempt := 0, lastAttemptFailure := none }

/-- Outcome of one delivery attempt: success, a handler-reported error
(transient or permanent), or a local network error (always transient). -/
inductive DeliveryOutcome where
  | success
  | handlerError (transient : Bool) (message : String)
  | networkError (message : String)
deriving DecidableEq, Repr

/-- Modelled from the spec: the attempt counter increments before the
network call is made, so a crash mid-flight cannot under-count. -/
def beginAttempt (cb : CallbackInfo) : CallbackInfo :=
  { cb with attempt := cb.attempt + 1 }

/-- Modelled from the spec: record a delivery outcome.  Success moves to
SUCCEEDED and clears lastAttemptFailure; a transient handler error or a
network error moves to BACKING_OFF recording the message; a permanent
handler error moves to the terminal FAILED state. -/
def recordOutcome (cb : CallbackInfo) : DeliveryOutcome → CallbackInfo
  | .success => { cb with state := .SUCCEEDED, lastAttemptFailure := none }
  | .handlerError transient msg =>
    if transient then { cb with state := .BACKING_OFF, lastAttemptFailure := some msg }
    else { cb with state := .FAILED, lastAttemptFailure := some msg }
  | .networkError msg =>
    { cb with state := .BACKING_OFF, lastAttemptFailure := some msg }

/-- One full dispatch attempt: increment the attempt counter, then make
the network call and record its outcome. -/
def dispatchAttempt (cb : CallbackInfo) (o : DeliveryOutcome) : CallbackInfo :=
  recordOutcome (beginAttempt cb) o

/-- Workflow execution status of one run. -/
inductive WorkflowStatus where
  | Running
  | Completed
  | Terminated
deriving DecidableEq, Repr

/-- One run together with its completion-callback entry. -/
structure RunState where
  status : WorkflowStatus
  callback : CallbackInfo
deriving DecidableEq, Repr

/-- A freshly started run: running, callback registered in STANDBY. -/
def startRun : RunState :=
  { status := .Running, callback := initialCallback }

/-- Modelled from the spec: the run's own close event is the callback's
trigger condition; closing dispatches a delivery attempt with the given
outcome. -/
def closeAndTrigger (r : RunState) (o : DeliveryOutcome) : RunState :=
  { status := .Completed, callback := dispatchAttempt r.callback o }

/-- Modelled from the spec: a reset that rewinds before the triggering
close event terminates the original run without invoking delivery and
without advancing its callback entry, and produces a successor run whose
independent callback entry starts back at STANDBY. -/
def resetWorkflow (r : RunState) : RunState × RunState :=
  ({ r with status := .Terminated }, startRun)

/-- A callback registration payload: target URL and header map. -/
structure Callback where
  url : String
  header : List (String × String)
deriving DecidableEq, Repr

/-- One entry of the address allow-list: a pattern and a per-pattern
insecure-allowed flag. -/
structure AddressPattern where
  pattern : String
  allowInsecure : Bool
deriving DecidableEq, Repr

/-- The externally enforced policy limits, consumed as configuration. -/
structure CallbackPolicy where
  nexusEnabled : Bool
  maxURLLength : Nat
  maxHeaderSize : Nat
  maxCallbacksPerWorkflow : Nat
  allowedAddresses : List AddressPattern
deriving DecidableEq, Repr

/-- Scheme of a callback URL, when it is a known one. -/
def schemeOf (url : String) : Option String :=
  if url.startsWith "https://" then some "https"
  else if url.startsWith "http://" then some "http"
  else none

/-- Host part of a callback URL: what follows the scheme separator. -/
def hostOf (url : String) : String :=
  if url.startsWith "https://" then url.drop 8
  else if url.startsWith "http://" then url.drop 7
  else url

/-- Total byte size of a header map: keys plus values. -/
def headerSize (h : List (String × String)) : Nat :=
  (h.map (fun kv => kv.1.length + kv.2.length)).sum

/-- First allow-list entry matching the host (a "*" pattern matches
every host). -/
def findPattern (ps : List AddressPattern) (host : String) : Option AddressPattern :=
  ps.find? (fun p => p.pattern = "*" || p.pattern = host)

/-- Modelled from the spec: per-callback validation of a registration
payload against the policy limits, in the order the functional tests
exhibit: URL length, then scheme, then header size, then the address
allow-list with its insecure flag.  Returns the error message, if any. -/
def validateCallbackURL (p : CallbackPolicy) (cb : Callback) : Option String :=
  if cb.url.length > p.maxURLLength then
    some ("invalid url: url length longer than max length allowed of "
      ++ toString p.maxURLLength)
  else
    match schemeOf cb.url with
    | none => some ("invalid url: unknown scheme: " ++ cb.url)
    | some scheme =>
      if headerSize cb.header > p.maxHeaderSize then
        some ("invalid header: header size longer than max allowed size of "
          ++ toString p.maxHeaderSize)
      else
        match findPattern p.allowedAddresses (hostOf cb.url) with
        | none =>
          some ("invalid url: url does not match any configured callback address: "
            ++ cb.url)
        | some pat =>
          if scheme == "http" && !pat.allowInsecure then
            some ("invalid url: callback address does not allow insecure connections: "
              ++ cb.url)
          else none

/-- Modelled from the spec: validation of the callbacks attached to a
start-workflow request, before the core accepts the registration.  The
enabled flag is checked first, then the callback count against the
configured maximum, then each callback in order. -/
def validateCallbacks (p : CallbackPolicy) (cbs : List Callback) : Option String :=
  if !p.nexusEnabled then
    some "attaching workflow callbacks is disabled for this namespace"
  else if cbs.length > p.maxCallbacksPerWorkflow then
    some ("cannot attach more than " ++ toString p.maxCallbacksPerWorkflow
      ++ " callbacks to a workflow")
  else
    (cbs.map (validateCallbackURL p)).findSome? id

/-- Modelled from the spec: the start-workflow request validates its
callbacks before the core is reached; a validation failure surfaces as
InvalidArgument and the run is never created, otherwise the run starts
with every callback registered in STANDBY with attempt 0. -/
def StartWorkflowExecution (p : CallbackPolicy) (cbs : List Callback) :
    Except Pause.ServiceError (List CallbackInfo) :=
  match validateCallbacks p cbs with
  | some msg => .error (.InvalidArgument msg)
  | none => .ok (cbs.map (fun _ => initialCallback))

end Callbacks

namespace Pause

/-- Example run state: two pending activities of type T, one of type U. -/
def exMS : MutableState :=
  { pendingActivities :=
      [ { activityId := "a1", activityType := "T", state := .Scheduled },
        { activityId := "a2", activityType := "T", state := .Started },
        { activityId := "a3", activityType := "U", state := .Started } ] }

/-- Example store around `exMS`. -/
def exStore : Store := { persisted := exMS, version := 5, workflowTasks := 2 }

/-- `exMS` after pausing both type-T activities. -/
def exMSPaused : MutableState :=
  { pendingActivities :=
      [ { activityId := "a1", activityType := "T", state := .Paused },
        { activityId := "a2", activityType := "T", state := .Paused },
        { activityId := "a3", activityType := "U", state := .Started } ] }

/-- Example batch with a terminal activity: a1 is Completed, a2 and a3
are still pausable, all of type T. -/
def exMSTerm : MutableState :=
  { pendingActivities :=
      [ { activityId := "a1", activityType := "T", state := .Completed },
        { activityId := "a2", activityType := "T", state := .Scheduled },
        { activityId := "a3", activityType := "T", state := .Started } ] }

/-- Example store around `exMSTerm`. -/
def exStoreTerm : Store := { persisted := exMSTerm, version := 7, workflowTasks := 1 }

/-- Example batch where the failure sits in the middle: b1 pausable,
b2 Completed, b3 pausable, all of type T. -/
def exMSMid : MutableState :=
  { pendingActivities :=
      [ { activityId := "b1", activityType := "T", state := .Scheduled },
        { activityId := "b2", activityType := "T", state := .Completed },
        { activityId := "b3", activityType := "T", state := .Scheduled } ] }

/-- Example store around `exMSMid`. -/
def exStoreMid : Store := { persisted := exMSMid, version := 3, workflowTasks := 0 }

/-- `exMSMid` after the first pause of the batch succeeded. -/
def exMSMidPre : MutableState :=
  { pendingActivities :=
      [ { activityId := "b1", activityType := "T", state := .Paused },
        { activityId := "b2", activityType := "T", state := .Completed },
        { activityId := "b3", activityType := "T", state := .Scheduled } ] }

/-- Example store with no pending activities. -/
def exStoreNone : Store :=
  { persisted := { pendingActivities := [] }, version := 1, workflowTasks := 0 }

end Pause

namespace Callbacks

/-- The policy configuration exercised by the functional test:
callbacks enabled, URL length capped at 50, header size at 6, two
callbacks per workflow, one wildcard allow-list entry. -/
def exPolicy : CallbackPolicy :=
  { nexusEnabled := true
    maxURLLength := 50
    maxHeaderSize := 6
    maxCallbacksPerWorkflow := 2
    allowedAddresses := [{ pattern := "*", allowInsecure := true }] }

/-- Three callback registrations, one more than `exPolicy` allows. -/
def exThreeCallbacks : List Callback :=
  [ { url := "http://url-1", header := [] },
    { url := "http://url-2", header := [] },
    { url := "http://url-3", header := [] } ]

/-- A callback whose URL is 57 characters long. -/
def exLongCallback : Callback :=
  { url := "http://aaaaaaaaaaaaaaaaaaaaaaaaaaaaaaaaaaaaaaaaaaaaaaaaaa"
    header := [] }

end Callbacks

namespace Pause

theorem foldl_pauseOne_pending (ids : List String) (ms : MutableState) :
    (ids.foldl pauseOne ms).pendingActivities =
      ms.pendingActivities.map (fun a =>
        if a.activityId ∈ ids then { a with state := ActivityState.Paused } else a) := by
  induction ids generalizing ms with
  | nil =>
    simp
  | cons id rest ih =>
    rw [List.foldl_cons, ih]
    have hone : (pauseOne ms id).pendingActivities =
        ms.pendingActivities.map (fun a =>
          if a.activityId = id then { a with state := ActivityState.Paused } else a) := rfl
    rw [hone, List.map_map]
    have hfun : ((fun a : ActivityInfo =>
          if a.activityId ∈ rest then { a with state := ActivityState.Paused } else a) ∘
        (fun a : ActivityInfo =>
          if a.activityId = id then { a with state := ActivityState.Paused } else a)) =
        (fun a : ActivityInfo =>
          if a.activityId ∈ id :: rest then { a with state := ActivityState.Paused } else a) := by
      funext a
      by_cases h1 : a.activityId = id
      · by_cases h2 : a.activityId ∈ rest <;>
          simp [Function.comp, h1, h2, List.mem_cons]
      · by_cases h2 : a.activityId ∈ rest <;>
          simp [Function.comp, h1, h2, List.mem_cons]
    rw [hfun]

theorem pauseAll_cons_ok (ms ms1 : MutableState) (id : String) (rest : List String)
    (hP : PauseActivity ms id = .ok ms1) :
    pauseAll ms (id :: rest) = pauseAll ms1 rest := by
  conv_lhs => unfold pauseAll
  rw [hP]

theorem pauseAll_cons_err (ms : MutableState) (id : String) (rest : List String)
    (e : ServiceError) (hP : PauseActivity ms id = .error e) :
    pauseAll ms (id :: rest) = (ms, some e) := by
  conv_lhs => unfold pauseAll
  rw [hP]

theorem PauseActivity_ok_inv (ms ms1 : MutableState) (activityId : String)
    (h : PauseActivity ms activityId = .ok ms1) : ms1 = pauseOne ms activityId := by
  unfold PauseActivity at h
  split at h
  · exact absurd h (by simp)
  · split at h
    · exact (Except.ok.inj h).symm
    · exact absurd h (by simp)

theorem pauseAll_ok_state (ids : List String) (ms ms' : MutableState)
    (h : pauseAll ms ids = (ms', none)) : ms' = ids.foldl pauseOne ms := by
  induction ids generalizing ms with
  | nil =>
    have : ms = ms' := congrArg Prod.fst h
    simp [this]
  | cons id rest ih =>
    unfold pauseAll at h
    cases hP : PauseActivity ms id with
    | error e =>
      rw [hP] at h
      exact absurd (congrArg Prod.snd h) (by simp)
    | ok ms1 =>
      rw [hP] at h
      rw [List.foldl_cons, ← PauseActivity_ok_inv ms ms1 id hP]
      exact ih ms1 h

theorem pauseAll_ok_pending (ids : List String) (ms ms' : MutableState)
    (h : pauseAll ms ids = (ms', none)) :
    ms'.pendingActivities =
      ms.pendingActivities.map (fun a =>
        if a.activityId ∈ ids then { a with state := ActivityState.Paused } else a) := by
  rw [pauseAll_ok_state ids ms ms' h, foldl_pauseOne_pending]

theorem pauseAll_append_ok (l1 l2 : List String) (ms m : MutableState)
    (h : pauseAll ms l1 = (m, none)) :
    pauseAll ms (l1 ++ l2) = pauseAll m l2 := by
  induction l1 generalizing ms with
  | nil =>
    have : ms = m := congrArg Prod.fst h
    rw [List.nil_append, this]
  | cons id rest ih =>
    rw [List.cons_append]
    cases hP : PauseActivity ms id with
    | error e =>
      rw [pauseAll_cons_err ms id rest e hP] at h
      exact absurd (congrArg Prod.snd h) (by simp)
    | ok ms1 =>
      rw [pauseAll_cons_ok ms ms1 id rest hP] at h
      rw [pauseAll_cons_ok ms ms1 id (rest ++ l2) hP]
      exact ih ms1 h

theorem updateFn_of_empty (sel : ActivitySelector) (ms0 : MutableState)
    (h : resolveActivityIDs ms0 sel = []) :
    pauseActivityUpdateFn sel ms0 = (ms0, .error .ActivityNotFound) := by
  unfold pauseActivityUpdateFn
  rw [h]
  simp

theorem updateFn_of_pauseAll_err (sel : ActivitySelector) (ms0 ms : MutableState)
    (e : ServiceError)
    (h : pauseAll ms0 (resolveActivityIDs ms0 sel) = (ms, some e)) :
    pauseActivityUpdateFn sel ms0 = (ms, .error e) := by
  have hne : ¬ (resolveActivityIDs ms0 sel).length = 0 := by
    intro hlen
    rw [List.length_eq_zero] at hlen
    rw [hlen] at h
    exact absurd (congrArg Prod.snd h) (by simp [pauseAll])
  unfold pauseActivityUpdateFn
  rw [if_neg hne, h]

theorem updateFn_of_pauseAll_ok (sel : ActivitySelector) (ms0 ms : MutableState)
    (hne : resolveActivityIDs ms0 sel ≠ [])
    (h : pauseAll ms0 (resolveActivityIDs ms0 sel) = (ms, none)) :
    pauseActivityUpdateFn sel ms0 =
      (ms, .ok { Noop := false, CreateWorkflowTask := false }) := by
  unfold pauseActivityUpdateFn
  rw [if_neg (fun hl => hne (List.length_eq_zero.mp hl)), h]

theorem updateFn_ok_inv (sel : ActivitySelector) (ms0 ms : MutableState)
    (act : UpdateWorkflowAction)
    (h : pauseActivityUpdateFn sel ms0 = (ms, .ok act)) :
    act = { Noop := false, CreateWorkflowTask := false } ∧
    resolveActivityIDs ms0 sel ≠ [] ∧
    pauseAll ms0 (resolveActivityIDs ms0 sel) = (ms, none) := by
  unfold pauseActivityUpdateFn at h
  by_cases hl : (resolveActivityIDs ms0 sel).length = 0
  · rw [if_pos hl] at h
    exact absurd (congrArg Prod.snd h) (by simp)
  · rw [if_neg hl] at h
    rcases hp : pauseAll ms0 (resolveActivityIDs ms0 sel) with ⟨m, oe⟩
    rw [hp] at h
    cases oe with
    | some e =>
      exact absurd (congrArg Prod.snd h) (by simp)
    | none =>
      have h1 : m = ms := congrArg Prod.fst h
      have h2 : act = { Noop := false, CreateWorkflowTask := false } :=
        (Except.ok.inj (congrArg Prod.snd h)).symm
      exact ⟨h2, fun hnil => hl (by rw [hnil]; rfl), by simp [hp, h1]⟩

theorem invoke_err (st : Store) (sel : ActivitySelector) (ms : MutableState)
    (e : ServiceError)
    (h : pauseActivityUpdateFn sel st.persisted = (ms, .error e)) :
    PauseActivityInvoke st sel = (st, .error e) := by
  unfold PauseActivityInvoke GetAndUpdateWorkflowWithNew
  rw [h]

theorem invoke_ok (st : Store) (sel : ActivitySelector) (ms : MutableState)
    (h : pauseActivityUpdateFn sel st.persisted =
      (ms, .ok { Noop := false, CreateWorkflowTask := false })) :
    PauseActivityInvoke st sel =
      ({ persisted := ms, version := st.version + 1, workflowTasks := st.workflowTasks },
        .ok ()) := by
  unfold PauseActivityInvoke GetAndUpdateWorkflowWithNew
  rw [h]
  rfl

theorem mem_resolve_by_type (ms : MutableState) (a : ActivityInfo) (t : String)
    (ha : a ∈ ms.pendingActivities) (ht : a.activityType = t) :
    a.activityId ∈ resolveActivityIDs ms (.byType t) := by
  unfold resolveActivityIDs
  exact List.mem_map_of_mem _ (List.mem_filter.mpr ⟨ha, by simp [ht]⟩)

/-- C1: for a PauseActivity invocation with an activityType selector,
a successful invocation leaves every pending activity whose type matches
in the Paused state in the persisted store; and for either selector, if
the resolved set of matching pending activityIDs is empty, the
invocation fails with ActivityNotFound and the store is unchanged — no
activity is paused, no partial success. -/
theorem pause_by_type_pauses_all_matching (st : Store) (t : String) :
    ((PauseActivityInvoke st (.byType t)).2 = .ok () →
      allMatchingPaused (PauseActivityInvoke st (.byType t)).1.persisted t = true) ∧
    (∀ sel : ActivitySelector, resolveActivityIDs st.persisted sel = [] →
      PauseActivityInvoke st sel = (st, .error .ActivityNotFound)) := by
  constructor
  · intro h
    rcases hU : pauseActivityUpdateFn (.byType t) st.persisted with ⟨ms, r⟩
    cases r with
    | error e =>
      rw [invoke_err st _ ms e hU] at h
      exact absurd h (by simp)
    | ok act =>
      obtain ⟨rfl, _, hp⟩ := updateFn_ok_inv _ _ _ _ hU
      rw [invoke_ok st _ ms hU]
      show allMatchingPaused ms t = true
      have hpend := pauseAll_ok_pending _ _ _ hp
      unfold allMatchingPaused
      rw [List.all_eq_true]
      intro a' ha'
      rw [hpend] at ha'
      obtain ⟨a, ha, rfl⟩ := List.mem_map.mp ha'
      by_cases hid : a.activityId ∈ resolveActivityIDs st.persisted (.byType t)
      · rw [if_pos hid]
        simp
      · rw [if_neg hid]
        by_cases ht : a.activityType = t
        · exact absurd (mem_resolve_by_type st.persisted a t ha ht) hid
        · simp [ht]
  · intro sel h
    exact invoke_err st sel st.persisted .ActivityNotFound (updateFn_of_empty sel _ h)

/-- C1 witness: on the example store, pausing by type T succeeds and
every type-T pending activity ends up Paused; pausing by the unmatched
type Z fails with ActivityNotFound leaving the store untouched. -/
theorem pause_by_type_pauses_all_matching_witness :
    allMatchingPaused (PauseActivityInvoke exStore (.byType "T")).1.persisted "T" = true ∧
    PauseActivityInvoke exStore (.byType "Z") = (exStore, .error .ActivityNotFound) :=
  ⟨(pause_by_type_pauses_all_matching exStore "T").1 (by decide),
   (pause_by_type_pauses_all_matching exStore "T").2 (.byType "Z") (by decide)⟩

/-- C2: if any transition of the resolved batch is illegal — the pause
loop reports an error — the whole invocation aborts with that error and
the persisted store is unchanged: nothing is persisted and no other
activity of the batch is left mutated in the persisted state. -/
theorem pause_batch_all_or_nothing (st : Store) (sel : ActivitySelector)
    (ms : MutableState) (e : ServiceError)
    (h : pauseAll st.persisted (resolveActivityIDs st.persisted sel) = (ms, some e)) :
    PauseActivityInvoke st sel = (st, .error e) :=
  invoke_err st sel ms e (updateFn_of_pauseAll_err sel st.persisted ms e h)

/-- C2 witness: in a batch of three type-T activities whose first member
a1 is in terminal state Completed, pausing by type aborts with the
illegal-transition error for a1 and the store is unchanged. -/
theorem pause_batch_all_or_nothing_witness :
    PauseActivityInvoke exStoreTerm (.byType "T") =
      (exStoreTerm, .error (.InvalidActivityState "a1" .Completed)) :=
  pause_batch_all_or_nothing exStoreTerm (.byType "T") exMSTerm
    (.InvalidActivityState "a1" .Completed) (by decide)

/-- C8: every successful PauseActivity invocation hands the transaction
engine an action with Noop = false and CreateWorkflowTask = false, so
the pause is persisted (version bumped, mutated state stored) and no new
workflow task is enqueued. -/
theorem pause_persists_without_new_workflow_task (st : Store)
    (sel : ActivitySelector) (ms : MutableState) (act : UpdateWorkflowAction)
    (h : pauseActivityUpdateFn sel st.persisted = (ms, .ok act)) :
    act.Noop = false ∧ act.CreateWorkflowTask = false ∧
    PauseActivityInvoke st sel =
      ({ persisted := ms, version := st.version + 1, workflowTasks := st.workflowTasks },
        .ok ()) := by
  obtain ⟨rfl, _, _⟩ := updateFn_ok_inv _ _ _ _ h
  exact ⟨rfl, rfl, invoke_ok _ _ _ h⟩

/-- C8 witness: pausing by type T on the example store persists the
paused state with the version bumped, signalling Noop = false and
CreateWorkflowTask = false, and enqueues no workflow task. -/
theorem pause_persists_without_new_workflow_task_witness :
    (UpdateWorkflowAction.mk false false).Noop = false ∧
    (UpdateWorkflowAction.mk false false).CreateWorkflowTask = false ∧
    PauseActivityInvoke exStore (.byType "T") =
      ({ persisted := exMSPaused, version := exStore.version + 1,
         workflowTasks := exStore.workflowTasks }, .ok ()) :=
  pause_persists_without_new_workflow_task exStore (.byType "T") exMSPaused
    (UpdateWorkflowAction.mk false false) (by decide)

/-- C9: an activityID selector always resolves to exactly that one ID,
whether or not a pending activity with that ID exists, so the empty-set
ActivityNotFound branch is unreachable for ID selectors; any failure of
an ID-selected invocation is exactly the error of the per-activity pause
transition — in particular an ID naming no pending activity fails
through that transition. -/
theorem pause_by_id_resolves_to_singleton (st : Store) (id : String) :
    resolveActivityIDs st.persisted (.byId id) = [id] ∧
    (∀ e : ServiceError, (PauseActivityInvoke st (.byId id)).2 = .error e →
      PauseActivity st.persisted id = .error e) ∧
    (findActivity st.persisted id = none →
      PauseActivityInvoke st (.byId id) = (st, .error .ActivityNotFound)) := by
  have hres : resolveActivityIDs st.persisted (.byId id) = [id] := rfl
  refine ⟨hres, ?_, ?_⟩
  · intro e h
    cases hP : PauseActivity st.persisted id with
    | error e' =>
      have hpa : pauseAll st.persisted (resolveActivityIDs st.persisted (.byId id)) =
          (st.persisted, some e') := by
        rw [hres]
        exact pauseAll_cons_err _ id [] e' hP
      rw [invoke_err st _ _ e' (updateFn_of_pauseAll_err _ _ _ _ hpa)] at h
      have hee : Except.error (ε := ServiceError) (α := Unit) e' = .error e := h
      have he : e' = e := Except.error.inj hee
      exact congrArg Except.error he
    | ok ms1 =>
      have hpa : pauseAll st.persisted (resolveActivityIDs st.persisted (.byId id)) =
          (ms1, none) := by
        rw [hres]
        rw [pauseAll_cons_ok _ ms1 id [] hP]
        rfl
      have hu := updateFn_of_pauseAll_ok (.byId id) st.persisted ms1
        (by rw [hres]; simp) hpa
      rw [invoke_ok st _ ms1 hu] at h
      exact absurd h (by simp)
  · intro hF
    have hP : PauseActivity st.persisted id = .error .ActivityNotFound := by
      unfold PauseActivity
      rw [hF]
    have hpa : pauseAll st.persisted (resolveActivityIDs st.persisted (.byId id)) =
        (st.persisted, some .ActivityNotFound) := by
      rw [hres]
      exact pauseAll_cons_err _ id [] _ hP
    exact invoke_err st _ _ _ (updateFn_of_pauseAll_err _ _ _ _ hpa)

/-- C9 witness: on a store with no pending activities, the ID selector
"x" still resolves to the singleton ["x"], and the invocation fails via
the per-activity pause transition on the nonexistent activity. -/
theorem pause_by_id_resolves_to_singleton_witness :
    resolveActivityIDs exStoreNone.persisted (.byId "x") = ["x"] ∧
    PauseActivity exStoreNone.persisted "x" = .error .ActivityNotFound ∧
    PauseActivityInvoke exStoreNone (.byId "x") =
      (exStoreNone, .error .ActivityNotFound) :=
  ⟨(pause_by_id_resolves_to_singleton exStoreNone "x").1,
   (pause_by_id_resolves_to_singleton exStoreNone "x").2.1 .ActivityNotFound (by decide),
   (pause_by_id_resolves_to_singleton exStoreNone "x").2.2 (by decide)⟩

/-- C10: when the pause of the resolved ID `fid` fails after the IDs of
`pre` were paused successfully, the update function returns that error
with an in-memory mutable state in which every pending activity resolved
before the failure is already Paused; the persisted store nevertheless
stays exactly the original one, because the transaction engine discards
the unpersisted mutations when the update function errors. -/
theorem pause_partial_in_memory_is_discarded (st : Store) (sel : ActivitySelector)
    (pre : List String) (fid : String) (post : List String)
    (msPre : MutableState) (e : ServiceError)
    (h1 : resolveActivityIDs st.persisted sel = pre ++ fid :: post)
    (h2 : pauseAll st.persisted pre = (msPre, none))
    (h3 : PauseActivity msPre fid = .error e) :
    pauseActivityUpdateFn sel st.persisted = (msPre, .error e) ∧
    pausedForAll msPre pre = true ∧
    PauseActivityInvoke st sel = (st, .error e) := by
  have hfull : pauseAll st.persisted (resolveActivityIDs st.persisted sel) =
      (msPre, some e) := by
    rw [h1, pauseAll_append_ok pre (fid :: post) _ _ h2]
    exact pauseAll_cons_err _ fid post e h3
  have hu := updateFn_of_pauseAll_err sel st.persisted msPre e hfull
  refine ⟨hu, ?_, invoke_err st sel msPre e hu⟩
  have hpend := pauseAll_ok_pending _ _ _ h2
  unfold pausedForAll
  rw [List.all_eq_true]
  intro a' ha'
  rw [hpend] at ha'
  obtain ⟨a, _, rfl⟩ := List.mem_map.mp ha'
  by_cases hid : a.activityId ∈ pre
  · rw [if_pos hid]
    simp
  · rw [if_neg hid]
    simp [hid]

/-- C10 witness: pausing type T on a batch b1 (pausable), b2
(Completed), b3 (pausable) pauses b1 in memory, fails on b2, returns the
in-memory state with b1 already Paused, and leaves the persisted store
unchanged. -/
theorem pause_partial_in_memory_is_discarded_witness :
    pauseActivityUpdateFn (.byType "T") exStoreMid.persisted =
      (exMSMidPre, .error (.InvalidActivityState "b2" .Completed)) ∧
    pausedForAll exMSMidPre ["b1"] = true ∧
    PauseActivityInvoke exStoreMid (.byType "T") =
      (exStoreMid, .error (.InvalidActivityState "b2" .Completed)) :=
  pause_partial_in_memory_is_discarded exStoreMid (.byType "T") ["b1"] "b2" ["b3"]
    exMSMidPre (.InvalidActivityState "b2" .Completed)
    (by decide) (by decide) (by decide)

end Pause

namespace Callbacks

theorem recordOutcome_attempt (cb : CallbackInfo) (o : DeliveryOutcome) :
    (recordOutcome cb o).attempt = cb.attempt := by
  cases o with
  | success => rfl
  | handlerError transient msg => cases transient <;> rfl
  | networkError msg => rfl

theorem dispatchAttempt_attempt (cb : CallbackInfo) (o : DeliveryOutcome) :
    (dispatchAttempt cb o).attempt = cb.attempt + 1 := by
  unfold dispatchAttempt
  rw [recordOutcome_attempt]
  rfl

theorem foldl_dispatchAttempt_attempt (os : List DeliveryOutcome) (cb : CallbackInfo) :
    (os.foldl dispatchAttempt cb).attempt = cb.attempt + os.length := by
  induction os generalizing cb with
  | nil => rfl
  | cons o rest ih =>
    rw [List.foldl_cons, ih, dispatchAttempt_attempt, List.length_cons]
    omega

/-- C3: the attempt counter of one callback entry increments exactly
once per dispatch attempt — the increment happens in the phase before
the network call, and recording the outcome (success or failure) never
changes it — so across any trace of dispatch attempts the counter equals
the number of attempts made and is non-decreasing along the trace. -/
theorem callback_attempt_counter_increments_once_per_attempt :
    (∀ cb : CallbackInfo, (beginAttempt cb).attempt = cb.attempt + 1) ∧
    (∀ (cb : CallbackInfo) (o : DeliveryOutcome),
      (recordOutcome cb o).attempt = cb.attempt) ∧
    (∀ (cb : CallbackInfo) (o : DeliveryOutcome),
      (dispatchAttempt cb o).attempt = cb.attempt + 1) ∧
    (∀ (cb : CallbackInfo) (os : List DeliveryOutcome),
      (os.foldl dispatchAttempt cb).attempt = cb.attempt + os.length) ∧
    (∀ (cb : CallbackInfo) (os extra : List DeliveryOutcome),
      (os.foldl dispatchAttempt cb).attempt ≤
        ((os ++ extra).foldl dispatchAttempt cb).attempt) := by
  refine ⟨fun cb => rfl, recordOutcome_attempt, dispatchAttempt_attempt,
    fun cb os => foldl_dispatchAttempt_attempt os cb, fun cb os extra => ?_⟩
  rw [foldl_dispatchAttempt_attempt, List.foldl_append,
    foldl_dispatchAttempt_attempt, foldl_dispatchAttempt_attempt]
  omega

/-- C4: a reset that rewinds before the callback's close trigger leaves
the original run's callback entry unchanged — still STANDBY with attempt
0, delivery never invoked — while the run produced by the reset carries
an independent entry that starts in STANDBY and is triggered normally by
that run's own close event. -/
theorem reset_preserves_untriggered_callback (r : RunState)
    (h : r.callback = initialCallback) :
    (resetWorkflow r).1.callback = r.callback ∧
    (resetWorkflow r).1.callback.state = .STANDBY ∧
    (resetWorkflow r).1.callback.attempt = 0 ∧
    (resetWorkflow r).1.status = .Terminated ∧
    (resetWorkflow r).2.callback = initialCallback ∧
    (closeAndTrigger (resetWorkflow r).2 .success).callback.state = .SUCCEEDED ∧
    (closeAndTrigger (resetWorkflow r).2 .success).callback.attempt = 1 := by
  refine ⟨rfl, ?_, ?_, rfl, rfl, rfl, rfl⟩ <;> rw [show (resetWorkflow r).1.callback = r.callback from rfl, h] <;> rfl

/-- C4 witness: resetting a freshly started run keeps the original
entry at STANDBY, attempt 0, and the successor run's independent entry
reaches SUCCEEDED through its own close. -/
theorem reset_preserves_untriggered_callback_witness :
    (resetWorkflow startRun).1.callback = startRun.callback ∧
    (resetWorkflow startRun).1.callback.state = .STANDBY ∧
    (resetWorkflow startRun).1.callback.attempt = 0 ∧
    (resetWorkflow startRun).1.status = .Terminated ∧
    (resetWorkflow startRun).2.callback = initialCallback ∧
    (closeAndTrigger (resetWorkflow startRun).2 .success).callback.state = .SUCCEEDED ∧
    (closeAndTrigger (resetWorkflow startRun).2 .success).callback.attempt = 1 :=
  reset_preserves_untriggered_callback startRun (by decide)

/-- C5: a first delivery attempt that hits a transient handler error
leaves the callback BACKING_OFF with attempt = 1 and the handler's error
message recorded in lastAttemptFailure; a successful second attempt
moves it to SUCCEEDED with attempt = 2 and the failure cleared. -/
theorem callback_transient_then_success_scenario :
    (dispatchAttempt initialCallback
      (.handlerError true "handler error (INTERNAL): intentional error")).state
        = .BACKING_OFF ∧
    (dispatchAttempt initialCallback
      (.handlerError true "handler error (INTERNAL): intentional error")).attempt = 1 ∧
    (dispatchAttempt initialCallback
      (.handlerError true "handler error (INTERNAL): intentional error")).lastAttemptFailure
        = some "handler error (INTERNAL): intentional error" ∧
    (dispatchAttempt (dispatchAttempt initialCallback
      (.handlerError true "handler error (INTERNAL): intentional error")) .success).state
        = .SUCCEEDED ∧
    (dispatchAttempt (dispatchAttempt initialCallback
      (.handlerError true "handler error (INTERNAL): intentional error")) .success).attempt
        = 2 ∧
    (dispatchAttempt (dispatchAttempt initialCallback
      (.handlerError true "handler error (INTERNAL): intentional error")) .success).lastAttemptFailure
        = none := by
  decide

end Callbacks

namespace Callbacks

/-- C6: a start-workflow request attaching 3 callbacks when the
configured maximum is 2 is rejected before the core is reached, with an
InvalidArgument error whose message is exactly the one the claim
states. -/
theorem start_rejects_three_callbacks_over_max_two (p : CallbackPolicy)
    (cbs : List Callback) (hEn : p.nexusEnabled = true)
    (hMax : p.maxCallbacksPerWorkflow = 2) (hLen : cbs.length = 3) :
    StartWorkflowExecution p cbs =
      .error (.InvalidArgument "cannot attach more than 2 callbacks to a workflow") := by
  unfold StartWorkflowExecution validateCallbacks
  rw [hEn, hMax, hLen]
  norm_num
  decide

/-- C6 witness: three short callbacks against the test policy (max 2)
are rejected with the exact message. -/
theorem start_rejects_three_callbacks_over_max_two_witness :
    StartWorkflowExecution exPolicy exThreeCallbacks =
      .error (.InvalidArgument "cannot attach more than 2 callbacks to a workflow") :=
  start_rejects_three_callbacks_over_max_two exPolicy exThreeCallbacks
    rfl rfl rfl

/-- C7: a start-workflow request attaching one callback whose URL is 57
characters long, against a configured maximum URL length of 50 (and a
callback count within the configured maximum), is rejected with an
InvalidArgument error whose message is exactly the one the claim
states. -/
theorem start_rejects_url_longer_than_max (p : CallbackPolicy) (cb : Callback)
    (hEn : p.nexusEnabled = true) (hMax : p.maxURLLength = 50)
    (hCnt : 1 ≤ p.maxCallbacksPerWorkflow) (hLen : cb.url.length = 57) :
    StartWorkflowExecution p [cb] =
      .error (.InvalidArgument
        "invalid url: url length longer than max length allowed of 50") := by
  have hval : validateCallbackURL p cb =
      some "invalid url: url length longer than max length allowed of 50" := by
    unfold validateCallbackURL
    rw [hLen, hMax, if_pos (by norm_num)]
    decide
  unfold StartWorkflowExecution validateCallbacks
  rw [hEn]
  have hcount : ¬ ([cb].length > p.maxCallbacksPerWorkflow) := by
    simp only [List.length_singleton]
    omega
  rw [if_neg (by simp), if_neg hcount]
  simp [hval, List.findSome?]

end Callbacks

namespace Callbacks

/-- C7 witness: the 57-character example URL against the test policy
(max URL length 50) is rejected with the exact message. -/
theorem start_rejects_url_longer_than_max_witness :
    StartWorkflowExecution exPolicy [exLongCallback] =
      .error (.InvalidArgument
        "invalid url: url length longer than max length allowed of 50") :=
  start_rejects_url_longer_than_max exPolicy exLongCallback
    rfl rfl (by decide) (by decide)

end Callbacks
